import Mathlib

/-!
Verification of `src/tools/convert_doors.py`, a one-shot converter that
extracts door records from two SQL dump files via a fixed regular
expression applied to each line (`pattern.search(line)`) and re-emits
them as YAML documents.

Embedding notes.
* A file's contents are modelled as the list of its lines (Python's
  `for line in f`); the trailing newline of a line cannot affect a match
  because the pattern ends with the literal `;`, so lines are modelled
  without their newline.
* Python's `re.search` returns the leftmost match.  Every repetition in
  the two patterns is followed by a character disjoint from the repeated
  class (`\d+` and `\s*` are followed by `'`, `[^']*` is followed by `'`,
  `-?` is followed by `\d`), so matching at a fixed position is
  deterministic and maximal-munch scanning is exact: no backtracking can
  produce a different match.  `search` is therefore modelled as trying a
  deterministic matcher at each start position, left to right.
* `\d` and `\s` are modelled by their ASCII meaning (the dumps are
  ASCII); `int()` on a captured `-?\d+` string is base-10 signed parsing.
* File writes become functions returning the written string; the
  `print` at the end of each writer becomes a function returning the
  printed notification line.
-/

namespace ConvertDoors

/-- ASCII whitespace matched by the pattern's `\s`. -/
def isSpaceChar (c : Char) : Bool :=
  c == ' ' || c == '\t' || c == '\n' || c == '\x0b' || c == '\x0c' || c == '\r'

/-- Base-10 value of a digit string (the effect of `int()` on a `\d+` capture). -/
def digitsToNat (l : List Char) : Nat :=
  l.foldl (fun n c => 10 * n + (c.toNat - 48)) 0

/-- Shape of a `-?\d+` capture: an optional leading `-`, then a nonempty
digit run. -/
def sdShape (l : List Char) : Bool :=
  if l.head? = some '-' then !l.tail.isEmpty && l.tail.all Char.isDigit
  else !l.isEmpty && l.all Char.isDigit

/-- Base-10 signed value of a `-?\d+` string. -/
def sdVal (l : List Char) : Int :=
  if l.head? = some '-' then -(digitsToNat l.tail : Int)
  else (digitsToNat l : Int)

/-- The effect of Python `int()` on a captured `-?\d+` string. -/
def pyInt (s : String) : Int := sdVal s.data

/-- Consume an exact literal prefix. -/
def stripPrefixL : List Char → List Char → Option (List Char)
  | [], s => some s
  | _ :: _, [] => none
  | p :: ps, x :: xs => if x = p then stripPrefixL ps xs else none

/-- Consume one expected character. -/
def expectChar (c : Char) : List Char → Option (List Char)
  | [] => none
  | x :: xs => if x = c then some xs else none

/-- Capture a nonempty maximal digit run: the pattern's `(\d+)` followed by `'`. -/
def takeDigits1 (s : List Char) : Option (List Char × List Char) :=
  let d := s.takeWhile Char.isDigit
  if d.isEmpty then none else some (d, s.dropWhile Char.isDigit)

/-- Capture a maximal quote-free run: the pattern's `([^']*)` followed by `'`. -/
def takeFree (s : List Char) : List Char × List Char :=
  (s.takeWhile (fun c => c ≠ '\''), s.dropWhile (fun c => c ≠ '\''))

/-- The inter-field separator `',\s*'` of both patterns. -/
def sepQ (s : List Char) : Option (List Char) := do
  let s ← expectChar '\'' s
  let s ← expectChar ',' s
  let s := s.dropWhile isSpaceChar
  expectChar '\'' s

/-- Capture `(-?\d+)` and parse it as a signed integer: a leading `-` is
taken only when present (it can never also start `\d+`), then a nonempty
digit run must follow. -/
def signedDigits (s : List Char) : Option (Int × List Char) :=
  if s.head? = some '-' then
    match takeDigits1 s.tail with
    | some (d, r) => some (-(digitsToNat d : Int), r)
    | none => none
  else
    match takeDigits1 s with
    | some (d, r) => some ((digitsToNat d : Int), r)
    | none => none

/-- A record produced by `parse_gfx_sql` (one dict of the entries list). -/
structure GfxEntry where
  gfxid : Int
  note : String
  direction : Int
  left_edge_offset : Int
  right_edge_offset : Int
deriving DecidableEq

/-- A record produced by `parse_spawn_sql` (one dict of the entries list). -/
structure SpawnEntry where
  id : Int
  location : String
  gfxid : Int
  x : Int
  y : Int
  map_id : Int
  hp : Int
  keeper : Int
  is_opening : Bool
deriving DecidableEq

/-- Literal prefix of the gfx pattern, up to and including the first `'`. -/
def litGfx : List Char := "INSERT INTO `door_gfxs` VALUES ('".data

/-- Closing literal `'\);` of both patterns. -/
def litEnd : List Char := "');".data

/-- Capture `(\d+)` and parse it as an integer (`int()` on the capture). -/
def uintField (s : List Char) : Option (Int × List Char) :=
  match takeDigits1 s with
  | none => none
  | some (d, r) => some ((digitsToNat d : Int), r)

/-- Separator `',\s*'` followed by an integer capture `(\d+)`. -/
def sepUInt (s : List Char) : Option (Int × List Char) :=
  (sepQ s).bind uintField

/-- Separator `',\s*'` followed by a raw digit capture `(\d+)`. -/
def sepUIntRaw (s : List Char) : Option (List Char × List Char) :=
  (sepQ s).bind takeDigits1

/-- Separator `',\s*'` followed by a signed capture `(-?\d+)`. -/
def sepSigned (s : List Char) : Option (Int × List Char) :=
  (sepQ s).bind signedDigits

/-- Separator `',\s*'` followed by a free-text capture `([^']*)`. -/
def sepFree (s : List Char) : Option (List Char × List Char) :=
  (sepQ s).map takeFree

/-- Attempt the gfx pattern at the start of `s` (deterministic: see header note). -/
def matchGfxAt (s : List Char) : Option GfxEntry :=
  (stripPrefixL litGfx s).bind fun s0 =>
  (uintField s0).bind fun p1 =>
  (sepFree p1.2).bind fun p2 =>
  (sepUInt p2.2).bind fun p3 =>
  (sepSigned p3.2).bind fun p4 =>
  (sepSigned p4.2).bind fun p5 =>
  (stripPrefixL litEnd p5.2).map fun _ =>
  { gfxid := p1.1, note := ⟨p2.1⟩, direction := p3.1,
    left_edge_offset := p4.1, right_edge_offset := p5.1 }

/-- `pattern.search` for the gfx pattern: leftmost position where it matches. -/
def searchGfx : List Char → Option GfxEntry
  | [] => none
  | c :: cs =>
    match matchGfxAt (c :: cs) with
    | some e => some e
    | none => searchGfx cs

/-- The record extracted from one input line, if the line matches. -/
def gfxLineEntry (line : String) : Option GfxEntry := searchGfx line.data

/-- `parse_gfx_sql`, on the list of lines of the input file. -/
def parse_gfx_sql (lines : List String) : List GfxEntry :=
  lines.filterMap gfxLineEntry

/-- Literal prefix of the spawn pattern, up to and including the first `'`. -/
def litSpawn : List Char := "INSERT INTO `spawnlist_door` VALUES ('".data

/-- Attempt the spawn pattern at the start of `s`.  Group 9 (`is_opening`)
is kept raw: the source compares the captured string with `'1'`. -/
def matchSpawnAt (s : List Char) : Option SpawnEntry :=
  (stripPrefixL litSpawn s).bind fun s0 =>
  (uintField s0).bind fun p1 =>
  (sepFree p1.2).bind fun p2 =>
  (sepUInt p2.2).bind fun p3 =>
  (sepUInt p3.2).bind fun p4 =>
  (sepUInt p4.2).bind fun p5 =>
  (sepUInt p5.2).bind fun p6 =>
  (sepUInt p6.2).bind fun p7 =>
  (sepUInt p7.2).bind fun p8 =>
  (sepUIntRaw p8.2).bind fun p9 =>
  (stripPrefixL litEnd p9.2).map fun _ =>
  { id := p1.1, location := ⟨p2.1⟩, gfxid := p3.1, x := p4.1, y := p5.1,
    map_id := p6.1, hp := p7.1, keeper := p8.1,
    is_opening := p9.1 == ['1'] }

/-- `pattern.search` for the spawn pattern. -/
def searchSpawn : List Char → Option SpawnEntry
  | [] => none
  | c :: cs =>
    match matchSpawnAt (c :: cs) with
    | some e => some e
    | none => searchSpawn cs

/-- The record extracted from one input line, if the line matches. -/
def spawnLineEntry (line : String) : Option SpawnEntry := searchSpawn line.data

/-- `parse_spawn_sql`, on the list of lines of the input file. -/
def parse_spawn_sql (lines : List String) : List SpawnEntry :=
  lines.filterMap spawnLineEntry

/-- The four output lines `write_gfx_yaml` emits for one entry. -/
def emitGfxEntryLines (e : GfxEntry) : List String :=
  ["  - gfxid: " ++ toString e.gfxid,
   "    direction: " ++ toString e.direction,
   "    left_edge_offset: " ++ toString e.left_edge_offset,
   "    right_edge_offset: " ++ toString e.right_edge_offset]

/-- All lines of the gfx output document, in emission order. -/
def gfxDocLines (es : List GfxEntry) : List String :=
  "door_gfxs:" :: (es.map emitGfxEntryLines).flatten

/-- `write_gfx_yaml`: the full byte content written to the output file. -/
def write_gfx_yaml (es : List GfxEntry) : String :=
  String.join ((gfxDocLines es).map (fun l => l ++ "\n"))

/-- The completion line `write_gfx_yaml` prints after writing. -/
def gfxDone (es : List GfxEntry) (path : String) : String :=
  "Wrote " ++ toString es.length ++ " GFX entries to " ++ path

/-- The eight output lines `write_spawn_yaml` emits for one entry. -/
def emitSpawnEntryLines (e : SpawnEntry) : List String :=
  ["  - id: " ++ toString e.id,
   "    gfxid: " ++ toString e.gfxid,
   "    x: " ++ toString e.x,
   "    y: " ++ toString e.y,
   "    map_id: " ++ toString e.map_id,
   "    hp: " ++ toString e.hp,
   "    keeper: " ++ toString e.keeper,
   "    is_opening: " ++ (if e.is_opening then "true" else "false")]

/-- All lines of the spawn output document, in emission order. -/
def spawnDocLines (es : List SpawnEntry) : List String :=
  "doors:" :: (es.map emitSpawnEntryLines).flatten

/-- `write_spawn_yaml`: the full byte content written to the output file. -/
def write_spawn_yaml (es : List SpawnEntry) : String :=
  String.join ((spawnDocLines es).map (fun l => l ++ "\n"))

/-- The completion line `write_spawn_yaml` prints after writing. -/
def spawnDone (es : List SpawnEntry) (path : String) : String :=
  "Wrote " ++ toString es.length ++ " spawn entries to " ++ path

/-- The whole run of the script's entry point, as a function from the two
input files' lines to the two written documents. -/
def convert (gfxLines spawnLines : List String) : String × String :=
  (write_gfx_yaml (parse_gfx_sql gfxLines),
   write_spawn_yaml (parse_spawn_sql spawnLines))

/-- A graphics input line in the documented INSERT format, built from its
five field strings. -/
def mkGfxLine (g n d lo ro : String) : String :=
  "INSERT INTO `door_gfxs` VALUES ('" ++ g ++ "', '" ++ n ++ "', '" ++ d ++
    "', '" ++ lo ++ "', '" ++ ro ++ "');"

/-- A spawn input line in the documented INSERT format, built from its
nine field strings. -/
def mkSpawnLine (i loc g x y m hp k w : String) : String :=
  "INSERT INTO `spawnlist_door` VALUES ('" ++ i ++ "', '" ++ loc ++ "', '" ++
    g ++ "', '" ++ x ++ "', '" ++ y ++ "', '" ++ m ++ "', '" ++ hp ++ "', '" ++
    k ++ "', '" ++ w ++ "');"

/-- An unsigned field: nonempty, all ASCII digits. -/
def digitStr (s : String) : Bool :=
  !s.data.isEmpty && s.data.all Char.isDigit

/-- A signed field: optional leading `-`, then a nonempty digit run. -/
def signedStr (s : String) : Bool := sdShape s.data

/-- A free-text field containing no single quote. -/
def freeStr (s : String) : Bool :=
  s.data.all (fun c => c != '\'')

/-- Whether an output line opens a YAML list item (starts with `  - `). -/
def startsWithItem (s : String) : Bool :=
  s.data.take 4 == "  - ".data

/-- Number of list items in an emitted document, given as its lines. -/
def itemCount (ls : List String) : Nat :=
  ls.countP (fun l => startsWithItem l)

/-! ### Helper lemmas about the combinators -/

theorem stripPrefixL_append (p s : List Char) : stripPrefixL p (p ++ s) = some s := by
  induction p with
  | nil => rfl
  | cons c cs ih => simp [stripPrefixL, ih]

theorem takeWhile_append_all (p : Char → Bool) (xs ys : List Char)
    (h1 : ∀ c ∈ xs, p c = true) (h2 : ∀ y, ys.head? = some y → p y = false) :
    (xs ++ ys).takeWhile p = xs ∧ (xs ++ ys).dropWhile p = ys := by
  induction xs with
  | nil =>
    cases ys with
    | nil => simp
    | cons y ts =>
      have hy := h2 y rfl
      constructor
      · simp [List.takeWhile_cons, hy]
      · simp [List.dropWhile_cons, hy]
  | cons x xt ih =>
    have hx : p x = true := h1 x (by simp)
    have hrest := ih (fun c hc => h1 c (by simp [hc]))
    constructor
    · simp [List.takeWhile_cons, hx, hrest.1]
    · simp [List.dropWhile_cons, hx, hrest.2]

theorem takeDigits1_exact (xs ys : List Char) (h0 : xs ≠ [])
    (h1 : ∀ c ∈ xs, c.isDigit = true) (h2 : ys.head? = some '\'') :
    takeDigits1 (xs ++ ys) = some (xs, ys) := by
  have hq : ∀ y, ys.head? = some y → y.isDigit = false := by
    intro y hy
    rw [h2] at hy
    cases hy
    decide
  have h := takeWhile_append_all Char.isDigit xs ys h1 hq
  unfold takeDigits1
  rw [h.1, h.2]
  simp [List.isEmpty_iff, h0]

theorem uintField_exact (xs ys : List Char) (h0 : xs ≠ [])
    (h1 : ∀ c ∈ xs, c.isDigit = true) (h2 : ys.head? = some '\'') :
    uintField (xs ++ ys) = some ((digitsToNat xs : Int), ys) := by
  unfold uintField
  rw [takeDigits1_exact xs ys h0 h1 h2]

theorem takeFree_exact (xs ys : List Char)
    (h1 : ∀ c ∈ xs, c ≠ '\'') (h2 : ys.head? = some '\'') :
    takeFree (xs ++ ys) = (xs, ys) := by
  have h1b : ∀ c ∈ xs, (fun c => decide (c ≠ '\'')) c = true := by
    intro c hc
    simpa using h1 c hc
  have hq : ∀ y, ys.head? = some y → (fun c => decide (c ≠ '\'')) y = false := by
    intro y hy
    rw [h2] at hy
    cases hy
    decide
  have h := takeWhile_append_all (fun c => decide (c ≠ '\'')) xs ys h1b hq
  unfold takeFree
  rw [Prod.mk.injEq]
  constructor
  · exact h.1
  · exact h.2

theorem sepQ_lit (t : List Char) : sepQ ("', '".data ++ t) = some t := rfl

theorem sepUInt_lit (xs ys : List Char) (h0 : xs ≠ [])
    (h1 : ∀ c ∈ xs, c.isDigit = true) (h2 : ys.head? = some '\'') :
    sepUInt ("', '".data ++ (xs ++ ys)) = some ((digitsToNat xs : Int), ys) := by
  unfold sepUInt
  rw [sepQ_lit, Option.some_bind, uintField_exact xs ys h0 h1 h2]

theorem sepUIntRaw_lit (xs ys : List Char) (h0 : xs ≠ [])
    (h1 : ∀ c ∈ xs, c.isDigit = true) (h2 : ys.head? = some '\'') :
    sepUIntRaw ("', '".data ++ (xs ++ ys)) = some (xs, ys) := by
  unfold sepUIntRaw
  rw [sepQ_lit, Option.some_bind, takeDigits1_exact xs ys h0 h1 h2]

theorem sepFree_lit (xs ys : List Char)
    (h1 : ∀ c ∈ xs, c ≠ '\'') (h2 : ys.head? = some '\'') :
    sepFree ("', '".data ++ (xs ++ ys)) = some (xs, ys) := by
  unfold sepFree
  rw [sepQ_lit, Option.map_some', takeFree_exact xs ys h1 h2]

theorem signedDigits_exact (s ys : List Char) (hs : sdShape s = true)
    (h2 : ys.head? = some '\'') :
    signedDigits (s ++ ys) = some (sdVal s, ys) := by
  cases s with
  | nil => simp [sdShape] at hs
  | cons c t =>
    rw [List.cons_append]
    unfold signedDigits sdVal
    by_cases hc : c = '-'
    · subst hc
      have hs' : t ≠ [] ∧ ∀ x ∈ t, x.isDigit = true := by
        simpa [sdShape, List.isEmpty_iff, List.all_eq_true] using hs
      rw [if_pos (show (('-' : Char) :: (t ++ ys)).head? = some '-' by rfl),
        if_pos (show (('-' : Char) :: t).head? = some '-' by rfl),
        List.tail_cons, List.tail_cons,
        takeDigits1_exact t ys hs'.1 hs'.2 h2]
    · have hs' : ∀ x ∈ c :: t, x.isDigit = true := by
        simpa [sdShape, List.head?_cons, hc, List.all_eq_true] using hs
      have hne1 : ¬(c :: (t ++ ys)).head? = some '-' := by
        simp [List.head?_cons, hc]
      have hne2 : ¬(c :: t).head? = some '-' := by
        simp [List.head?_cons, hc]
      rw [if_neg hne1, if_neg hne2, ← List.cons_append,
        takeDigits1_exact (c :: t) ys (by simp) hs' h2]

theorem sepSigned_lit (xs ys : List Char) (hs : sdShape xs = true)
    (h2 : ys.head? = some '\'') :
    sepSigned ("', '".data ++ (xs ++ ys)) = some (sdVal xs, ys) := by
  unfold sepSigned
  rw [sepQ_lit, Option.some_bind, signedDigits_exact xs ys hs h2]

theorem sep_head (x : List Char) : ("', '".data ++ x).head? = some '\'' := rfl

theorem end_head : (litEnd).head? = some '\'' := rfl

theorem stripPrefixL_self (p : List Char) : stripPrefixL p p = some [] := by
  have h := stripPrefixL_append p []
  rwa [List.append_nil] at h

theorem pyInt_digit (s : String) (h : digitStr s = true) :
    pyInt s = (digitsToNat s.data : Int) := by
  have h' : s.data ≠ [] ∧ ∀ c ∈ s.data, c.isDigit = true := by
    simpa [digitStr, List.isEmpty_iff, List.all_eq_true] using h
  unfold pyInt sdVal
  cases hsd : s.data with
  | nil => exact absurd hsd h'.1
  | cons c t =>
    have hc : c.isDigit = true := h'.2 c (by rw [hsd]; simp)
    have hne : ¬(c :: t).head? = some '-' := by
      simp only [List.head?_cons, Option.some.injEq]
      intro hcm
      subst hcm
      simp at hc
    rw [if_neg hne]

theorem mkGfxLine_data (g n d lo ro : String) :
    (mkGfxLine g n d lo ro).data =
      litGfx ++ (g.data ++ ("', '".data ++ (n.data ++ ("', '".data ++
        (d.data ++ ("', '".data ++ (lo.data ++ ("', '".data ++
        (ro.data ++ litEnd))))))))) := by
  simp only [mkGfxLine, litGfx, litEnd, String.data_append, List.append_assoc]

/-- On a well-formed graphics line the pattern matches at position 0 and
captures exactly the five fields. -/
theorem matchGfxAt_mkGfxLine (g n d lo ro : String)
    (hg : digitStr g = true) (hn : freeStr n = true) (hd : digitStr d = true)
    (hlo : signedStr lo = true) (hro : signedStr ro = true) :
    matchGfxAt (mkGfxLine g n d lo ro).data =
      some ⟨pyInt g, n, pyInt d, pyInt lo, pyInt ro⟩ := by
  have hg' : g.data ≠ [] ∧ ∀ c ∈ g.data, c.isDigit = true := by
    simpa [digitStr, List.isEmpty_iff, List.all_eq_true] using hg
  have hd' : d.data ≠ [] ∧ ∀ c ∈ d.data, c.isDigit = true := by
    simpa [digitStr, List.isEmpty_iff, List.all_eq_true] using hd
  have hn' : ∀ c ∈ n.data, c ≠ '\'' := by
    simpa [freeStr, List.all_eq_true] using hn
  rw [mkGfxLine_data]
  unfold matchGfxAt
  rw [stripPrefixL_append, Option.some_bind,
    uintField_exact g.data _ hg'.1 hg'.2 (sep_head _), Option.some_bind,
    sepFree_lit n.data _ hn' (sep_head _), Option.some_bind,
    sepUInt_lit d.data _ hd'.1 hd'.2 (sep_head _), Option.some_bind,
    sepSigned_lit lo.data _ hlo (sep_head _), Option.some_bind,
    sepSigned_lit ro.data _ hro end_head, Option.some_bind,
    stripPrefixL_self litEnd, Option.map_some',
    pyInt_digit g hg, pyInt_digit d hd]
  rfl

theorem searchGfx_of_matchAt (l : List Char) (e : GfxEntry)
    (h : matchGfxAt l = some e) : searchGfx l = some e := by
  cases l with
  | nil =>
    have : matchGfxAt [] = none := rfl
    rw [this] at h
    cases h
  | cons c cs =>
    unfold searchGfx
    rw [h]

theorem searchSpawn_of_matchAt (l : List Char) (e : SpawnEntry)
    (h : matchSpawnAt l = some e) : searchSpawn l = some e := by
  cases l with
  | nil =>
    have : matchSpawnAt [] = none := rfl
    rw [this] at h
    cases h
  | cons c cs =>
    unfold searchSpawn
    rw [h]

/-- The record extracted from a well-formed graphics line is exactly the
one built from its five fields. -/
theorem gfxLineEntry_mkGfxLine (g n d lo ro : String)
    (hg : digitStr g = true) (hn : freeStr n = true) (hd : digitStr d = true)
    (hlo : signedStr lo = true) (hro : signedStr ro = true) :
    gfxLineEntry (mkGfxLine g n d lo ro) =
      some ⟨pyInt g, n, pyInt d, pyInt lo, pyInt ro⟩ :=
  searchGfx_of_matchAt _ _ (matchGfxAt_mkGfxLine g n d lo ro hg hn hd hlo hro)

theorem mkSpawnLine_data (i loc g x y m hp k w : String) :
    (mkSpawnLine i loc g x y m hp k w).data =
      litSpawn ++ (i.data ++ ("', '".data ++ (loc.data ++ ("', '".data ++
        (g.data ++ ("', '".data ++ (x.data ++ ("', '".data ++
        (y.data ++ ("', '".data ++ (m.data ++ ("', '".data ++
        (hp.data ++ ("', '".data ++ (k.data ++ ("', '".data ++
        (w.data ++ litEnd))))))))))))))))) := by
  simp only [mkSpawnLine, litSpawn, litEnd, String.data_append, List.append_assoc]

/-- On a well-formed spawn line the pattern matches at position 0 and
captures exactly the nine fields; the boolean is the literal comparison of
the ninth capture with `'1'`. -/
theorem matchSpawnAt_mkSpawnLine (i loc g x y m hp k w : String)
    (hi : digitStr i = true) (hloc : freeStr loc = true)
    (hg : digitStr g = true) (hx : digitStr x = true) (hy : digitStr y = true)
    (hm : digitStr m = true) (hhp : digitStr hp = true)
    (hk : digitStr k = true) (hw : digitStr w = true) :
    matchSpawnAt (mkSpawnLine i loc g x y m hp k w).data =
      some ⟨pyInt i, loc, pyInt g, pyInt x, pyInt y, pyInt m, pyInt hp,
            pyInt k, w.data == ['1']⟩ := by
  have hi' : i.data ≠ [] ∧ ∀ c ∈ i.data, c.isDigit = true := by
    simpa [digitStr, List.isEmpty_iff, List.all_eq_true] using hi
  have hg' : g.data ≠ [] ∧ ∀ c ∈ g.data, c.isDigit = true := by
    simpa [digitStr, List.isEmpty_iff, List.all_eq_true] using hg
  have hx' : x.data ≠ [] ∧ ∀ c ∈ x.data, c.isDigit = true := by
    simpa [digitStr, List.isEmpty_iff, List.all_eq_true] using hx
  have hy' : y.data ≠ [] ∧ ∀ c ∈ y.data, c.isDigit = true := by
    simpa [digitStr, List.isEmpty_iff, List.all_eq_true] using hy
  have hm' : m.data ≠ [] ∧ ∀ c ∈ m.data, c.isDigit = true := by
    simpa [digitStr, List.isEmpty_iff, List.all_eq_true] using hm
  have hhp' : hp.data ≠ [] ∧ ∀ c ∈ hp.data, c.isDigit = true := by
    simpa [digitStr, List.isEmpty_iff, List.all_eq_true] using hhp
  have hk' : k.data ≠ [] ∧ ∀ c ∈ k.data, c.isDigit = true := by
    simpa [digitStr, List.isEmpty_iff, List.all_eq_true] using hk
  have hw' : w.data ≠ [] ∧ ∀ c ∈ w.data, c.isDigit = true := by
    simpa [digitStr, List.isEmpty_iff, List.all_eq_true] using hw
  have hloc' : ∀ c ∈ loc.data, c ≠ '\'' := by
    simpa [freeStr, List.all_eq_true] using hloc
  rw [mkSpawnLine_data]
  unfold matchSpawnAt
  rw [stripPrefixL_append, Option.some_bind,
    uintField_exact i.data _ hi'.1 hi'.2 (sep_head _), Option.some_bind,
    sepFree_lit loc.data _ hloc' (sep_head _), Option.some_bind,
    sepUInt_lit g.data _ hg'.1 hg'.2 (sep_head _), Option.some_bind,
    sepUInt_lit x.data _ hx'.1 hx'.2 (sep_head _), Option.some_bind,
    sepUInt_lit y.data _ hy'.1 hy'.2 (sep_head _), Option.some_bind,
    sepUInt_lit m.data _ hm'.1 hm'.2 (sep_head _), Option.some_bind,
    sepUInt_lit hp.data _ hhp'.1 hhp'.2 (sep_head _), Option.some_bind,
    sepUInt_lit k.data _ hk'.1 hk'.2 (sep_head _), Option.some_bind,
    sepUIntRaw_lit w.data _ hw'.1 hw'.2 end_head, Option.some_bind,
    stripPrefixL_self litEnd, Option.map_some',
    pyInt_digit i hi, pyInt_digit g hg, pyInt_digit x hx, pyInt_digit y hy,
    pyInt_digit m hm, pyInt_digit hp hhp, pyInt_digit k hk]

/-- The record extracted from a well-formed spawn line is exactly the one
built from its nine fields. -/
theorem spawnLineEntry_mkSpawnLine (i loc g x y m hp k w : String)
    (hi : digitStr i = true) (hloc : freeStr loc = true)
    (hg : digitStr g = true) (hx : digitStr x = true) (hy : digitStr y = true)
    (hm : digitStr m = true) (hhp : digitStr hp = true)
    (hk : digitStr k = true) (hw : digitStr w = true) :
    spawnLineEntry (mkSpawnLine i loc g x y m hp k w) =
      some ⟨pyInt i, loc, pyInt g, pyInt x, pyInt y, pyInt m, pyInt hp,
            pyInt k, w.data == ['1']⟩ :=
  searchSpawn_of_matchAt _ _
    (matchSpawnAt_mkSpawnLine i loc g x y m hp k w hi hloc hg hx hy hm hhp hk hw)

/-! ### Helper lemmas about search and captured free text -/

theorem searchGfx_some (l : List Char) (e : GfxEntry)
    (h : searchGfx l = some e) : ∃ t, matchGfxAt t = some e := by
  induction l with
  | nil => simp [searchGfx] at h
  | cons c cs ih =>
    unfold searchGfx at h
    cases hm : matchGfxAt (c :: cs) with
    | some e' =>
      simp only [hm, Option.some.injEq] at h
      exact ⟨c :: cs, by rw [hm, h]⟩
    | none =>
      rw [hm] at h
      exact ih h

theorem searchSpawn_some (l : List Char) (e : SpawnEntry)
    (h : searchSpawn l = some e) : ∃ t, matchSpawnAt t = some e := by
  induction l with
  | nil => simp [searchSpawn] at h
  | cons c cs ih =>
    unfold searchSpawn at h
    cases hm : matchSpawnAt (c :: cs) with
    | some e' =>
      simp only [hm, Option.some.injEq] at h
      exact ⟨c :: cs, by rw [hm, h]⟩
    | none =>
      rw [hm] at h
      exact ih h

theorem sepFree_no_quote (s : List Char) (p : List Char × List Char)
    (h : sepFree s = some p) : '\'' ∉ p.1 := by
  unfold sepFree at h
  obtain ⟨t, _, hp⟩ := Option.map_eq_some'.mp h
  intro hmem
  rw [← hp] at hmem
  have := List.mem_takeWhile_imp hmem
  simp at this

theorem matchGfxAt_note (s : List Char) (e : GfxEntry)
    (h : matchGfxAt s = some e) : '\'' ∉ e.note.data := by
  unfold matchGfxAt at h
  simp only [Option.bind_eq_some, Option.map_eq_some'] at h
  obtain ⟨s0, _, p1, _, p2, h2, p3, _, p4, _, p5, _, u, _, he⟩ := h
  have hq := sepFree_no_quote p1.2 p2 h2
  rw [← he]
  exact hq

theorem matchSpawnAt_location (s : List Char) (e : SpawnEntry)
    (h : matchSpawnAt s = some e) : '\'' ∉ e.location.data := by
  unfold matchSpawnAt at h
  simp only [Option.bind_eq_some, Option.map_eq_some'] at h
  obtain ⟨s0, _, p1, _, p2, h2, p3, _, p4, _, p5, _, p6, _, p7, _, p8, _, p9,
    _, u, _, he⟩ := h
  have hq := sepFree_no_quote p1.2 p2 h2
  rw [← he]
  exact hq

/-! ### Helper lemmas about emission and counting -/

theorem startsWithItem_append (p t : String) (h : 4 ≤ p.data.length) :
    startsWithItem (p ++ t) = startsWithItem p := by
  unfold startsWithItem
  rw [String.data_append, List.take_append_eq_append_take,
    Nat.sub_eq_zero_of_le h, List.take_zero, List.append_nil]

theorem countP_gfxBlock (e : GfxEntry) :
    (emitGfxEntryLines e).countP (fun l => startsWithItem l) = 1 := by
  have h1 : startsWithItem ("  - gfxid: " ++ toString e.gfxid) = true := by
    rw [startsWithItem_append _ _ (by decide)]
    decide
  have h2 : startsWithItem ("    direction: " ++ toString e.direction) = false := by
    rw [startsWithItem_append _ _ (by decide)]
    decide
  have h3 : startsWithItem ("    left_edge_offset: " ++ toString e.left_edge_offset) = false := by
    rw [startsWithItem_append _ _ (by decide)]
    decide
  have h4 : startsWithItem ("    right_edge_offset: " ++ toString e.right_edge_offset) = false := by
    rw [startsWithItem_append _ _ (by decide)]
    decide
  simp [emitGfxEntryLines, List.countP_cons, h1, h2, h3, h4]

theorem countP_spawnBlock (e : SpawnEntry) :
    (emitSpawnEntryLines e).countP (fun l => startsWithItem l) = 1 := by
  have h1 : startsWithItem ("  - id: " ++ toString e.id) = true := by
    rw [startsWithItem_append _ _ (by decide)]
    decide
  have h2 : startsWithItem ("    gfxid: " ++ toString e.gfxid) = false := by
    rw [startsWithItem_append _ _ (by decide)]
    decide
  have h3 : startsWithItem ("    x: " ++ toString e.x) = false := by
    rw [startsWithItem_append _ _ (by decide)]
    decide
  have h4 : startsWithItem ("    y: " ++ toString e.y) = false := by
    rw [startsWithItem_append _ _ (by decide)]
    decide
  have h5 : startsWithItem ("    map_id: " ++ toString e.map_id) = false := by
    rw [startsWithItem_append _ _ (by decide)]
    decide
  have h6 : startsWithItem ("    hp: " ++ toString e.hp) = false := by
    rw [startsWithItem_append _ _ (by decide)]
    decide
  have h7 : startsWithItem ("    keeper: " ++ toString e.keeper) = false := by
    rw [startsWithItem_append _ _ (by decide)]
    decide
  have h8 : startsWithItem ("    is_opening: " ++ (if e.is_opening then "true" else "false")) = false := by
    rw [startsWithItem_append _ _ (by decide)]
    decide
  simp [emitSpawnEntryLines, List.countP_cons, h1, h2, h3, h4, h5, h6, h7, h8]

theorem countP_gfxBody (es : List GfxEntry) :
    ((es.map emitGfxEntryLines).flatten).countP (fun l => startsWithItem l) =
      es.length := by
  induction es with
  | nil => simp
  | cons e es ih =>
    simp only [List.map_cons, List.flatten_cons, List.countP_append, ih,
      countP_gfxBlock, List.length_cons]
    omega

theorem countP_spawnBody (es : List SpawnEntry) :
    ((es.map emitSpawnEntryLines).flatten).countP (fun l => startsWithItem l) =
      es.length := by
  induction es with
  | nil => simp
  | cons e es ih =>
    simp only [List.map_cons, List.flatten_cons, List.countP_append, ih,
      countP_spawnBlock, List.length_cons]
    omega

theorem itemCount_gfxDoc (es : List GfxEntry) :
    itemCount (gfxDocLines es) = es.length := by
  unfold itemCount gfxDocLines
  rw [List.countP_cons]
  have hhead : startsWithItem "door_gfxs:" = false := by decide
  rw [countP_gfxBody, hhead]
  simp

theorem itemCount_spawnDoc (es : List SpawnEntry) :
    itemCount (spawnDocLines es) = es.length := by
  unfold itemCount spawnDocLines
  rw [List.countP_cons]
  have hhead : startsWithItem "doors:" = false := by decide
  rw [countP_spawnBody, hhead]
  simp

theorem length_filterMap_countP {α β : Type} (f : α → Option β) (l : List α) :
    (l.filterMap f).length = l.countP (fun a => (f a).isSome) := by
  induction l with
  | nil => simp
  | cons a l ih =>
    cases h : f a <;>
      simp [List.filterMap_cons, h, List.countP_cons, ih]

/-! ### Claims -/

/-- Claim C1, counterexample: a documented-format graphics line whose
`direction` field carries a leading `-` does not match at all (the pattern
allows `-` only on the two offset fields), so extraction yields zero
records instead of the one record with `direction = -2` the claim
demands. -/
theorem c1_counterexample :
    gfxLineEntry (mkGfxLine "101" "north door" "-2" "-5" "10") = none ∧
    parse_gfx_sql [mkGfxLine "101" "north door" "-2" "-5" "10"] = [] := by
  constructor
  · decide
  · decide

/-- Claim C1 (amended): on a graphics line in the documented INSERT format
with all five fields quoted, a quote-free note, unsigned digit strings for
`gfxid` and `direction`, and optionally `-`-signed digit strings for the
two offsets, extraction yields exactly one record whose integer fields
equal the base-10 signed values of the captured strings; only
`left_edge_offset` and `right_edge_offset` may carry a leading `-`. -/
theorem c1_amended (g n d lo ro : String)
    (hg : digitStr g = true) (hn : freeStr n = true) (hd : digitStr d = true)
    (hlo : signedStr lo = true) (hro : signedStr ro = true) :
    parse_gfx_sql [mkGfxLine g n d lo ro] =
      [{ gfxid := pyInt g, note := n, direction := pyInt d,
         left_edge_offset := pyInt lo, right_edge_offset := pyInt ro }] := by
  unfold parse_gfx_sql
  rw [List.filterMap_cons, gfxLineEntry_mkGfxLine g n d lo ro hg hn hd hlo hro]
  rfl

/-- Claim C1 (amended), witness at a concrete line. -/
theorem c1_amended_witness :
    parse_gfx_sql [mkGfxLine "101" "north door" "2" "-5" "10"] =
      [{ gfxid := pyInt "101", note := "north door", direction := pyInt "2",
         left_edge_offset := pyInt "-5", right_edge_offset := pyInt "10" }] :=
  c1_amended "101" "north door" "2" "-5" "10" (by decide) (by decide)
    (by decide) (by decide) (by decide)

/-- Claim C2, counterexample: a spawn line whose `is_opening` field is the
empty literal does not match (`(\d+)` needs at least one digit), so it
yields zero records — not, as the claim states, a record with
`is_opening = false`. -/
theorem c2_counterexample :
    parse_spawn_sql [mkSpawnLine "1" "loc" "2" "3" "4" "5" "6" "7" ""] = [] := by
  decide

/-- Claim C2 (amended): on a well-formed spawn line the captured
`is_opening` literal is a nonempty digit string and the extracted boolean
is true exactly when that literal is `1` (so `0`, `2`, … give false; an
empty field makes the whole line fail to match and yields no record), and
the emitter writes the boolean as the lowercase token `true` or `false`,
never as `0`/`1`. -/
theorem c2_amended :
    (∀ i loc g x y m hp k w : String, digitStr i = true → freeStr loc = true →
      digitStr g = true → digitStr x = true → digitStr y = true →
      digitStr m = true → digitStr hp = true → digitStr k = true →
      digitStr w = true →
      spawnLineEntry (mkSpawnLine i loc g x y m hp k w) =
        some { id := pyInt i, location := loc, gfxid := pyInt g, x := pyInt x,
               y := pyInt y, map_id := pyInt m, hp := pyInt hp,
               keeper := pyInt k, is_opening := w.data == ['1'] }) ∧
    (∀ e : SpawnEntry,
      (e.is_opening = true ∧
        (emitSpawnEntryLines e)[7]? = some "    is_opening: true") ∨
      (e.is_opening = false ∧
        (emitSpawnEntryLines e)[7]? = some "    is_opening: false")) := by
  constructor
  · intro i loc g x y m hp k w hi hloc hg hx hy hm hhp hk hw
    exact spawnLineEntry_mkSpawnLine i loc g x y m hp k w hi hloc hg hx hy hm
      hhp hk hw
  · intro e
    cases hb : e.is_opening
    · right
      exact ⟨rfl, by simp [emitSpawnEntryLines, hb]⟩
    · left
      exact ⟨rfl, by simp [emitSpawnEntryLines, hb]⟩

/-- Claim C2 (amended), witness: `is_opening` literal `0` gives false. -/
theorem c2_amended_witness :
    spawnLineEntry (mkSpawnLine "1" "loc" "2" "3" "4" "5" "6" "7" "0") =
      some { id := pyInt "1", location := "loc", gfxid := pyInt "2",
             x := pyInt "3", y := pyInt "4", map_id := pyInt "5",
             hp := pyInt "6", keeper := pyInt "7",
             is_opening := "0".data == ['1'] } :=
  c2_amended.1 "1" "loc" "2" "3" "4" "5" "6" "7" "0" (by decide) (by decide)
    (by decide) (by decide) (by decide) (by decide) (by decide) (by decide)
    (by decide)

/-- Claim C3: extraction distributes over concatenation of the input lines
(so records appear in the order of their matching lines, with duplicates
kept), and the emitted document body is the in-order concatenation of the
per-record blocks — no sorting, deduplication, or cross-referencing
happens between extraction and emission. -/
theorem c3_order_stability :
    (∀ xs ys : List String,
      parse_gfx_sql (xs ++ ys) = parse_gfx_sql xs ++ parse_gfx_sql ys) ∧
    (∀ xs ys : List String,
      parse_spawn_sql (xs ++ ys) = parse_spawn_sql xs ++ parse_spawn_sql ys) ∧
    (∀ es1 es2 : List GfxEntry,
      (gfxDocLines (es1 ++ es2)).tail =
        (gfxDocLines es1).tail ++ (gfxDocLines es2).tail) ∧
    (∀ es1 es2 : List SpawnEntry,
      (spawnDocLines (es1 ++ es2)).tail =
        (spawnDocLines es1).tail ++ (spawnDocLines es2).tail) := by
  refine ⟨?_, ?_, ?_, ?_⟩
  · intro xs ys
    exact List.filterMap_append xs ys gfxLineEntry
  · intro xs ys
    exact List.filterMap_append xs ys spawnLineEntry
  · intro es1 es2
    simp [gfxDocLines]
  · intro es1 es2
    simp [spawnDocLines]

/-- Claim C4: the emitted block of a GfxEntry consists of exactly the four
designated fields in fixed order and ignores `note`; the block of a
SpawnEntry consists of exactly the eight designated fields in fixed order
and ignores `location`. -/
theorem c4_field_selection :
    (∀ (e : GfxEntry) (n : String),
      emitGfxEntryLines { e with note := n } = emitGfxEntryLines e) ∧
    (∀ e : GfxEntry,
      emitGfxEntryLines e =
        ["  - gfxid: " ++ toString e.gfxid,
         "    direction: " ++ toString e.direction,
         "    left_edge_offset: " ++ toString e.left_edge_offset,
         "    right_edge_offset: " ++ toString e.right_edge_offset]) ∧
    (∀ (e : SpawnEntry) (loc : String),
      emitSpawnEntryLines { e with location := loc } = emitSpawnEntryLines e) ∧
    (∀ e : SpawnEntry,
      emitSpawnEntryLines e =
        ["  - id: " ++ toString e.id,
         "    gfxid: " ++ toString e.gfxid,
         "    x: " ++ toString e.x,
         "    y: " ++ toString e.y,
         "    map_id: " ++ toString e.map_id,
         "    hp: " ++ toString e.hp,
         "    keeper: " ++ toString e.keeper,
         "    is_opening: " ++ (if e.is_opening then "true" else "false")]) :=
  ⟨fun _ _ => rfl, fun _ => rfl, fun _ _ => rfl, fun _ => rfl⟩

/-- Claim C5: the number of list items in the emitted document equals the
number of input lines on which the pattern matched, and the completion
notification reports exactly that number together with the destination
path. -/
theorem c5_count_invariant :
    (∀ lines : List String,
      itemCount (gfxDocLines (parse_gfx_sql lines)) =
        lines.countP (fun l => (gfxLineEntry l).isSome)) ∧
    (∀ (lines : List String) (path : String),
      gfxDone (parse_gfx_sql lines) path =
        "Wrote " ++ toString (lines.countP (fun l => (gfxLineEntry l).isSome)) ++
          " GFX entries to " ++ path) ∧
    (∀ lines : List String,
      itemCount (spawnDocLines (parse_spawn_sql lines)) =
        lines.countP (fun l => (spawnLineEntry l).isSome)) ∧
    (∀ (lines : List String) (path : String),
      spawnDone (parse_spawn_sql lines) path =
        "Wrote " ++
          toString (lines.countP (fun l => (spawnLineEntry l).isSome)) ++
          " spawn entries to " ++ path) := by
  refine ⟨?_, ?_, ?_, ?_⟩
  · intro lines
    rw [itemCount_gfxDoc]
    exact length_filterMap_countP gfxLineEntry lines
  · intro lines path
    unfold gfxDone
    rw [show (parse_gfx_sql lines).length =
      lines.countP (fun l => (gfxLineEntry l).isSome) from
      length_filterMap_countP gfxLineEntry lines]
  · intro lines
    rw [itemCount_spawnDoc]
    exact length_filterMap_countP spawnLineEntry lines
  · intro lines path
    unfold spawnDone
    rw [show (parse_spawn_sql lines).length =
      lines.countP (fun l => (spawnLineEntry l).isSome) from
      length_filterMap_countP spawnLineEntry lines]

/-- Claim C6: a line on which the pattern finds no match contributes no
record wherever it sits in the file (extraction is total and silently
skips it), and in particular blank lines, comment lines, wrong-arity
lines and unquoted lines do not match. -/
theorem c6_unmatched_skipped :
    (∀ (pre post : List String) (l : String), gfxLineEntry l = none →
      parse_gfx_sql (pre ++ l :: post) = parse_gfx_sql (pre ++ post)) ∧
    (∀ (pre post : List String) (l : String), spawnLineEntry l = none →
      parse_spawn_sql (pre ++ l :: post) = parse_spawn_sql (pre ++ post)) ∧
    gfxLineEntry "" = none ∧
    gfxLineEntry "-- comment" = none ∧
    gfxLineEntry "INSERT INTO `door_gfxs` VALUES ('1', 'a', '2');" = none ∧
    gfxLineEntry "INSERT INTO `door_gfxs` VALUES (1, a, 2, 3, 4);" = none ∧
    spawnLineEntry "" = none ∧
    spawnLineEntry
      "INSERT INTO `spawnlist_door` VALUES ('1', 'a', '2', '3', '4', '5', '6', '7');" =
      none := by
  refine ⟨?_, ?_, by decide, by decide, by decide, by decide, by decide,
    by decide⟩
  · intro pre post l h
    unfold parse_gfx_sql
    rw [List.filterMap_append, List.filterMap_append, List.filterMap_cons, h]
  · intro pre post l h
    unfold parse_spawn_sql
    rw [List.filterMap_append, List.filterMap_append, List.filterMap_cons, h]

/-- Claim C6, witness: dropping a comment line leaves the extraction
unchanged. -/
theorem c6_unmatched_skipped_witness :
    parse_gfx_sql
        ([mkGfxLine "101" "north door" "2" "-5" "10"] ++ "-- comment" :: []) =
      parse_gfx_sql ([mkGfxLine "101" "north door" "2" "-5" "10"] ++ []) :=
  c6_unmatched_skipped.1 [mkGfxLine "101" "north door" "2" "-5" "10"] []
    "-- comment" (by decide)

/-- Claim C7: the documented scenario line yields exactly the record
`{gfxid := 101, direction := 2, left_edge_offset := -5,
right_edge_offset := 10}` and that record emits exactly the four
documented output lines. -/
theorem c7_scenario :
    gfxLineEntry
        "INSERT INTO `door_gfxs` VALUES ('101', 'north door', '2', '-5', '10');" =
      some { gfxid := 101, note := "north door", direction := 2,
             left_edge_offset := -5, right_edge_offset := 10 } ∧
    emitGfxEntryLines
        { gfxid := 101, note := "north door", direction := 2,
          left_edge_offset := -5, right_edge_offset := 10 } =
      ["  - gfxid: 101", "    direction: 2", "    left_edge_offset: -5",
       "    right_edge_offset: 10"] := by
  constructor
  · decide
  · decide

/-- Claim C8: when no input line matches (in particular on an empty file)
the emitted document is exactly the top-level key line and the completion
notification reports zero records. -/
theorem c8_empty_input :
    (∀ lines : List String, (∀ l ∈ lines, gfxLineEntry l = none) →
      write_gfx_yaml (parse_gfx_sql lines) = "door_gfxs:\n" ∧
      ∀ path, gfxDone (parse_gfx_sql lines) path =
        "Wrote 0 GFX entries to " ++ path) ∧
    (∀ lines : List String, (∀ l ∈ lines, spawnLineEntry l = none) →
      write_spawn_yaml (parse_spawn_sql lines) = "doors:\n" ∧
      ∀ path, spawnDone (parse_spawn_sql lines) path =
        "Wrote 0 spawn entries to " ++ path) := by
  constructor
  · intro lines h
    have hp : parse_gfx_sql lines = [] := List.filterMap_eq_nil_iff.mpr h
    rw [hp]
    exact ⟨rfl, fun _ => rfl⟩
  · intro lines h
    have hp : parse_spawn_sql lines = [] := List.filterMap_eq_nil_iff.mpr h
    rw [hp]
    exact ⟨rfl, fun _ => rfl⟩

/-- Claim C8, witness at the empty file. -/
theorem c8_empty_input_witness :
    write_gfx_yaml (parse_gfx_sql []) = "door_gfxs:\n" ∧
    gfxDone (parse_gfx_sql []) "server/data/yaml/door_gfx.yaml" =
      "Wrote 0 GFX entries to " ++ "server/data/yaml/door_gfx.yaml" := by
  have h := c8_empty_input.1 [] (by intro l hl; cases hl)
  exact ⟨h.1, h.2 _⟩

/-- Claim C9: the conversion is deterministic — the emitted bytes are a
pure function of the input lines, so two runs on equal inputs produce
byte-identical output documents. -/
theorem c9_deterministic (g1 s1 g2 s2 : List String)
    (hg : g1 = g2) (hs : s1 = s2) : convert g1 s1 = convert g2 s2 := by
  rw [hg, hs]

/-- Claim C9, witness: a repeated run on a fixed input. -/
theorem c9_deterministic_witness :
    convert [mkGfxLine "101" "north door" "2" "-5" "10"] [] =
      convert [mkGfxLine "101" "north door" "2" "-5" "10"] [] :=
  c9_deterministic [mkGfxLine "101" "north door" "2" "-5" "10"] []
    [mkGfxLine "101" "north door" "2" "-5" "10"] [] rfl rfl

/-- Claim C10, counterexample: a documented-format line whose note field
contains apostrophes can still match — the pattern then matches an
earlier, shorter capture — so it is not true that every line whose
free-text field contains an apostrophe is skipped with no record. -/
theorem c10_counterexample :
    ('\'' ∈ "z', '3', '4', '5'); junk".data) ∧
    gfxLineEntry (mkGfxLine "101" "z', '3', '4', '5'); junk" "2" "-5" "10") =
      some { gfxid := 101, note := "z", direction := 3,
             left_edge_offset := 4, right_edge_offset := 5 } := by
  constructor
  · decide
  · decide

/-- Claim C10 (amended): the free-text captures themselves can never
contain a single quote — every record's `note`/`location` is
apostrophe-free — and a typical line whose note field contains an
apostrophe (for example `a'b`) fails to match and is skipped; however a
crafted apostrophe-bearing field can make the pattern match earlier with a
shorter quote-free capture, so not every such line produces zero
records. -/
theorem c10_amended :
    (∀ (l : String) (e : GfxEntry), gfxLineEntry l = some e →
      '\'' ∉ e.note.data) ∧
    (∀ (l : String) (e : SpawnEntry), spawnLineEntry l = some e →
      '\'' ∉ e.location.data) ∧
    gfxLineEntry (mkGfxLine "101" "a'b" "2" "-5" "10") = none := by
  refine ⟨?_, ?_, by decide⟩
  · intro l e h
    obtain ⟨t, ht⟩ := searchGfx_some l.data e h
    exact matchGfxAt_note t e ht
  · intro l e h
    obtain ⟨t, ht⟩ := searchSpawn_some l.data e h
    exact matchSpawnAt_location t e ht

/-- Claim C10 (amended), witness: the note captured from the crafted line
contains no apostrophe. -/
theorem c10_amended_witness :
    '\'' ∉ (GfxEntry.note
      { gfxid := 101, note := "z", direction := 3, left_edge_offset := 4,
        right_edge_offset := 5 }).data :=
  c10_amended.1 (mkGfxLine "101" "z', '3', '4', '5'); junk" "2" "-5" "10")
    { gfxid := 101, note := "z", direction := 3, left_edge_offset := 4,
      right_edge_offset := 5 }
    (by decide)

end ConvertDoors
